import Mathlib

/-!
Verification development for the observability instrumentation layer of a
small FastAPI inventory application.  The Python sources embedded here are:

* src/instrumentation/with_instrumentation.py   (generic span wrapper)
* src/instrumentation/get_instrumented_logger.py (log-to-span bridge)
* src/instrumentation/get_instrumented_aiohttp_session.py (memoized client)
* src/instrumentation/az_inject_instrumentation.py (resource configuration)

Python values, exceptions and coroutine results are modelled shallowly;
the OpenTelemetry calls used by the sources are modelled by their documented
semantics (a span records attributes, events, a status and an ended flag;
the context manager returned by tracer.start_as_current_span uses the
defaults end_on_exit=True, record_exception=True, set_status_on_exception=True,
whose exception clause catches only Exception subclasses, not BaseException).
-/

/-- A Python value, restricted to the shapes the proofs need.  str and type
rendering follow CPython. -/
inductive PyVal where
  | int (n : Int)
  | str (s : String)
  | bool (b : Bool)
  | none
deriving DecidableEq

/-- Python str() of a value. -/
def PyVal.pyStr : PyVal → String
  | .int n => toString n
  | .str s => s
  | .bool b => if b then "True" else "False"
  | .none => "None"

/-- Python str(type(v)) of a value. -/
def PyVal.pyTypeStr : PyVal → String
  | .int _ => "<class \x27int\x27>"
  | .str _ => "<class \x27str\x27>"
  | .bool _ => "<class \x27bool\x27>"
  | .none => "<class \x27NoneType\x27>"

/-- A raised Python error: its class name, its message, and whether the class
derives from Exception (False for BaseException-only classes such as
asyncio.CancelledError on Python 3.8+, which except-Exception does not catch). -/
structure Exn where
  ty : String
  msg : String
  isException : Bool
deriving DecidableEq

/-- Result of running an operation body to completion: a returned value or a
raised error. -/
inductive Outcome where
  | ok (v : PyVal)
  | raised (e : Exn)
deriving DecidableEq

/-- OpenTelemetry span status code. -/
inductive SpanStatus where
  | unset
  | ok
  | error
deriving DecidableEq

/-- A span event: a name plus attributes. -/
structure SEvent where
  name : String
  attrs : List (String × String)
deriving DecidableEq

/-- The event appended by span.record_exception(e): name "exception" with the
error class and message as attributes. -/
def exnEvent (e : Exn) : SEvent :=
  ⟨"exception", [("exception.type", e.ty), ("exception.message", e.msg)]⟩

/-- Observable data of one finished span. -/
structure SpanData where
  name : String
  attrs : List (String × String)
  events : List SEvent
  status : SpanStatus
  ended : Bool
deriving DecidableEq

/-- A span together with the spans created while it was the active context. -/
inductive SpanTree where
  | node (data : SpanData) (children : List SpanTree)

/-- Data of the root of a span tree. -/
def SpanTree.data : SpanTree → SpanData
  | .node d _ => d

/-- Children of the root of a span tree. -/
def SpanTree.children : SpanTree → List SpanTree
  | .node _ cs => cs

/-- Effect of invoking a Python callable: either the call runs to completion
immediately (a plain function returning a non-coroutine value, or raising
before returning), or the call returns a coroutine object, whose later
awaiting produces the outcome.  In both cases the spans created by running
the body are carried alongside. -/
inductive CallEffect where
  | immediate (o : Outcome) (spans : List SpanTree)
  | coro (o : Outcome) (spans : List SpanTree)

/-- An operation as seen by with_instrumentation: its dunder module and name
(copied onto the wrapper by functools.wraps) and its call behaviour on given
positional and keyword arguments. -/
structure Operation where
  module : String
  name : String
  run : List PyVal → List (String × PyVal) → CallEffect

/-- Outcome and created spans once the call is driven to completion (awaiting
the returned coroutine when the call produced one, exactly as the wrapper
body does after its inspect.iscoroutine check, and as any caller of an async
operation does). -/
def resolveCall : CallEffect → Outcome × List SpanTree
  | .immediate o s => (o, s)
  | .coro o s => (o, s)

/-- The value returned, or error raised, by a call driven to completion. -/
def outcomeOf (fn : Operation) (args : List PyVal)
    (kwargs : List (String × PyVal)) : Outcome :=
  (resolveCall (fn.run args kwargs)).1

/-- The spans created by a call driven to completion. -/
def spansOf (fn : Operation) (args : List PyVal)
    (kwargs : List (String × PyVal)) : List SpanTree :=
  (resolveCall (fn.run args kwargs)).2

/-- Attributes set by the loop for idx, a in enumerate(args): the stringified
value keyed operation.arg_i_value and the type tag keyed operation.args_i_type
(the source really does mix the singular and plural key stems). -/
def argAttrs (start : Nat) : List PyVal → List (String × String)
  | [] => []
  | a :: rest =>
      ("operation.arg_" ++ toString start ++ "_value", a.pyStr)
      :: ("operation.args_" ++ toString start ++ "_type", a.pyTypeStr)
      :: argAttrs (start + 1) rest

/-- Attributes set by the loop for k, v in kwargs.items(), in insertion
order. -/
def kwargAttrs : List (String × PyVal) → List (String × String)
  | [] => []
  | (k, v) :: rest =>
      ("operation.kwarg_" ++ k ++ "_value", v.pyStr)
      :: ("operation.kwarg_" ++ k ++ "_type", v.pyTypeStr)
      :: kwargAttrs rest

/-- Attributes present on the wrapper span before the wrapped call is made:
the operation.module attribute followed by the argument and keyword-argument
attributes. -/
def baseAttrs (fn : Operation) (args : List PyVal)
    (kwargs : List (String × PyVal)) : List (String × String) :=
  ("operation.module", fn.module ++ "." ++ fn.name)
    :: (argAttrs 0 args ++ kwargAttrs kwargs)

/-- One execution of the body of the coroutine function otel_wrap produced by
with_instrumentation, from src/instrumentation/with_instrumentation.py lines
10 to 31: start a span named module.name, set the operation.module, argument
and keyword attributes, invoke fn, await the result if it is a coroutine, and
then

* on a returned value v: set operation.result_value and operation.result_type
  and return v; the with-block ends the span, status stays unset;
* on a raised Exception e: the except clause sets status ERROR and records
  the exception, then re-raises; the exception propagates through the
  start_as_current_span context manager, whose exit records the exception a
  second time, sets status ERROR again, and ends the span;
* on a raised BaseException that is not an Exception (cancellation): neither
  the except clause nor the context manager exit matches it, so no status is
  set and nothing is recorded, but the finally clause of the context manager
  still ends the span and the error propagates.

Returns the resolved outcome together with the span tree the call created;
spans created by the inner call are children of the wrapper span because
they are created while it is the active context. -/
def runBody (fn : Operation) (args : List PyVal)
    (kwargs : List (String × PyVal)) : Outcome × SpanTree :=
  let qual := fn.module ++ "." ++ fn.name
  let res := resolveCall (fn.run args kwargs)
  match res.1 with
  | .ok v =>
      (.ok v,
       .node ⟨qual,
              baseAttrs fn args kwargs
                ++ [("operation.result_value", v.pyStr),
                    ("operation.result_type", v.pyTypeStr)],
              [], .unset, true⟩ res.2)
  | .raised e =>
      if e.isException then
        (.raised e,
         .node ⟨qual, baseAttrs fn args kwargs, [exnEvent e, exnEvent e],
                .error, true⟩ res.2)
      else
        (.raised e,
         .node ⟨qual, baseAttrs fn args kwargs, [], .unset, true⟩ res.2)

/-- with_instrumentation from src/instrumentation/with_instrumentation.py:
produces the coroutine function otel_wrap.  functools.wraps copies module and
name from fn; calling the wrapper only creates a coroutine (an async def body
runs nothing at call time), and awaiting that coroutine runs the body. -/
def with_instrumentation (fn : Operation) : Operation where
  module := fn.module
  name := fn.name
  run := fun args kwargs =>
    .coro (runBody fn args kwargs).1 [(runBody fn args kwargs).2]

/-- The span created by one completed call of the wrapper around fn. -/
def wrapSpan (fn : Operation) (args : List PyVal)
    (kwargs : List (String × PyVal)) : SpanTree :=
  (runBody fn args kwargs).2

/-- A Python logging.LogRecord as the bridge sees it: levelname, levelno, and
the result of rendering str(record.msg) inside the f-string of emit.  The msg
attribute of a record may be an arbitrary object, so rendering it can raise
(an object whose dunder str raises); renderMsg carries that possibility. -/
structure LogRecord where
  levelname : String
  levelno : Int
  renderMsg : Except Exn String

/-- InstrumentedLoggerHandler.emit from
src/instrumentation/get_instrumented_logger.py lines 8 to 12: fetch the
current span; if it is INVALID_SPAN (modelled as the none case) do nothing;
otherwise add an event named levelname colon message and, when levelno is at
least 40, set the span status to ERROR.  There is no try clause: if rendering
the message raises, the error propagates to the logging caller. -/
def InstrumentedLoggerHandler.emit (cur : Option SpanData) (r : LogRecord) :
    Except Exn (Option SpanData) :=
  match cur with
  | none => .ok none
  | some s =>
    match r.renderMsg with
    | .error e => .error e
    | .ok m =>
      let s1 := { s with events := s.events ++ [⟨r.levelname ++ ": " ++ m, []⟩] }
      let s2 := if 40 ≤ r.levelno then { s1 with status := SpanStatus.error } else s1
      .ok (some s2)

/-- The pure successful effect of one emit on an active span, given the
rendered message. -/
def emitStep (s : SpanData) (r : LogRecord) (m : String) : SpanData :=
  let s1 := { s with events := s.events ++ [⟨r.levelname ++ ": " ++ m, []⟩] }
  if 40 ≤ r.levelno then { s1 with status := SpanStatus.error } else s1

/-- Effect on the active span of k identical instrumented handlers each
running emit in turn. -/
def runHandlers : Nat → SpanData → LogRecord → String → SpanData
  | 0, s, _, _ => s
  | k + 1, s, r, m => runHandlers k (emitStep s r m) r m

/-- Global logging state: for each logger name, the identities of the
instrumented handlers attached to the (name-keyed, process-shared) logger,
plus a counter allocating fresh handler identities.  logging.getLogger
returns the one logger registered under a name, creating it with no handlers
on first use. -/
structure LoggingState where
  handlers : String → List Nat
  fresh : Nat

/-- The logging state before any call: no logger has handlers. -/
def initLogging : LoggingState := ⟨fun _ => [], 0⟩

/-- Logger.addHandler: appends the handler unless that very handler object is
already attached. -/
def addHandler (hs : List Nat) (h : Nat) : List Nat :=
  if h ∈ hs then hs else hs ++ [h]

/-- get_instumented_logger from
src/instrumentation/get_instrumented_logger.py lines 16 to 19 (the source
spells it without the r): fetch the name-keyed logger, construct a fresh
InstrumentedLoggerHandler and attach it, and return the logger.  Returns the
logger identity (its name) together with the updated global state. -/
def get_instumented_logger (nm : String) (st : LoggingState) :
    String × LoggingState :=
  (nm,
   { handlers := fun n =>
       if n = nm then addHandler (st.handlers nm) st.fresh else st.handlers n,
     fresh := st.fresh + 1 })

/-- Global logging state after n calls of get_instumented_logger with the
same name, starting from the initial state. -/
def stateAfter (nm : String) : Nat → LoggingState
  | 0 => initLogging
  | n + 1 => (get_instumented_logger nm (stateAfter nm n)).2

/-- Logger.callHandlers on a record that passes the level checks: run each
attached instrumented handler's emit in order; an error raised by one handler
propagates and the remaining handlers do not run. -/
def callHandlers (hs : List Nat) (cur : Option SpanData) (r : LogRecord) :
    Except Exn (Option SpanData) :=
  match hs with
  | [] => .ok cur
  | _ :: rest =>
    match InstrumentedLoggerHandler.emit cur r with
    | .error e => .error e
    | .ok cur2 => callHandlers rest cur2 r

/-- State of the functools.lru_cache cell behind
get_instrumented_aiohttp_session: the cached session (sessions are numbered
by construction order so distinct constructions are distinguishable), the
next fresh session number, and how many times the factory body has run. -/
structure CacheState where
  cache : Option Nat
  nextId : Nat
  constructed : Nat
deriving DecidableEq

/-- Cache state before the first call. -/
def initCache : CacheState := ⟨none, 0, 0⟩

/-- Where one in-flight call of the memoized accessor stands: about to look
up the cache, past a cache miss and about to run the factory, or finished
with its returned session. -/
inductive ThreadPhase where
  | start
  | missed
  | done (v : Nat)
deriving DecidableEq

/-- One atomic step of a call of the lru_cache wrapper, as CPython executes
it: the cache lookup is one step; on a miss the factory call plus the store
is a later, separate step (lru_cache holds no lock around the user function,
so another call can run in between).  Matching the CPython behaviour, a
caller whose store finds the key already filled keeps the existing cache
entry but still returns the session it itself constructed. -/
def lruStep (st : CacheState) (p : ThreadPhase) : CacheState × ThreadPhase :=
  match p with
  | .start =>
    match st.cache with
    | some v => (st, .done v)
    | none => (st, .missed)
  | .missed =>
    ({ cache := match st.cache with | some w => some w | none => some st.nextId,
       nextId := st.nextId + 1, constructed := st.constructed + 1 },
     .done st.nextId)
  | .done v => (st, .done v)

/-- Identifier of one of two concurrent calls. -/
inductive Tid where
  | A
  | B
deriving DecidableEq

/-- Two concurrent in-flight calls of the accessor over the shared cache. -/
structure TwoCalls where
  st : CacheState
  pa : ThreadPhase
  pb : ThreadPhase
deriving DecidableEq

/-- Let the chosen call take its next atomic step. -/
def interleaveStep (c : TwoCalls) (t : Tid) : TwoCalls :=
  match t with
  | .A => ⟨(lruStep c.st c.pa).1, (lruStep c.st c.pa).2, c.pb⟩
  | .B => ⟨(lruStep c.st c.pb).1, c.pa, (lruStep c.st c.pb).2⟩

/-- Run a whole interleaving schedule. -/
def runSchedule (sched : List Tid) (c : TwoCalls) : TwoCalls :=
  sched.foldl interleaveStep c

/-- Both calls poised to run against an empty cache. -/
def initTwoCalls : TwoCalls := ⟨initCache, .start, .start⟩

/-- The racing schedule: both calls miss before either constructs. -/
def raceSchedule : List Tid := [.A, .B, .A, .B]

/-- get_instrumented_aiohttp_session from
src/instrumentation/get_instrumented_aiohttp_session.py lines 5 to 9, run
without interruption (no other call overlapping): on a hit return the cached
session, on a miss construct a session, store and return it. -/
def get_instrumented_aiohttp_session (st : CacheState) : Nat × CacheState :=
  match st.cache with
  | some v => (v, st)
  | none => (st.nextId, ⟨some st.nextId, st.nextId + 1, st.constructed + 1⟩)

/-- Results and final cache state of n back-to-back sequential calls. -/
def seqCalls : Nat → CacheState → List Nat × CacheState
  | 0, st => ([], st)
  | n + 1, st =>
    ((get_instrumented_aiohttp_session st).1
       :: (seqCalls n (get_instrumented_aiohttp_session st).2).1,
     (seqCalls n (get_instrumented_aiohttp_session st).2).2)

/-- An OpenTelemetry resource: its attribute mapping. -/
structure Resource where
  attrs : List (String × String)
deriving DecidableEq

/-- The Resource.create call of inject_instrumentation,
src/instrumentation/az_inject_instrumentation.py lines 20 to 25: service.name
is os.environ.get with the fallback backend, service.version is the constant
0.0.0.  The environment is a partial map from variable names to values; the
construction is total, there is no failure path. -/
def inject_instrumentation_resource (env : String → Option String) : Resource :=
  ⟨[("service.name", (env "OTEL_SERVICE_NAME").getD "backend"),
    ("service.version", "0.0.0")]⟩

/-- A ValueError raised by an application operation. -/
def valErr : Exn := ⟨"ValueError", "bad input", true⟩

/-- A plain synchronous operation that returns the integer 1 and creates no
spans of its own. -/
def plainOp : Operation :=
  ⟨"app.main", "get_item", fun _ _ => .immediate (.ok (.int 1)) []⟩

/-- A synchronous operation that raises ValueError. -/
def opFail : Operation :=
  ⟨"app.main", "create_item", fun _ _ => .immediate (.raised valErr) []⟩

/-- asyncio.CancelledError: on Python 3.8+ it derives from BaseException but
not from Exception. -/
def cancelledErr : Exn := ⟨"asyncio.CancelledError", "", false⟩

/-- An asynchronous operation whose await is cancelled while suspended: the
coroutine resolves by raising CancelledError. -/
def opCancel : Operation :=
  ⟨"app.main", "update_item", fun _ _ => .coro (.raised cancelledErr) []⟩

/-- An asynchronous division operation used as a concrete witness input:
succeeds with 10 over 2. -/
def divideOp : Operation :=
  ⟨"app.main", "divide", fun _ _ => .coro (.ok (.int 5)) []⟩

/-- The error raised while rendering an unprintable log message. -/
def badMsgErr : Exn := ⟨"ValueError", "unprintable object", true⟩

/-- A log record whose msg object raises from its dunder str (for example a
detached ORM row): rendering the message fails. -/
def evilRecord : LogRecord :=
  ⟨"ERROR", 40, .error badMsgErr⟩

/-- An ordinary error-severity record whose message renders fine. -/
def errRecord : LogRecord :=
  ⟨"ERROR", 40, .ok "db down"⟩

/-- A span active while log records are emitted. -/
def span0 : SpanData :=
  ⟨"app.main.get_item", [], [], .unset, false⟩

/-- The outcome computed by the wrapper body equals the resolved outcome of
the wrapped call. -/
theorem runBody_fst (fn : Operation) (args : List PyVal)
    (kwargs : List (String × PyVal)) :
    (runBody fn args kwargs).1 = outcomeOf fn args kwargs := by
  unfold runBody outcomeOf
  rcases h : (resolveCall (fn.run args kwargs)).1 with v | e
  · simp [h]
  · by_cases he : e.isException <;> simp [h, he]

/-- Resolving a call of the wrapper yields the same outcome as resolving the
wrapped operation. -/
theorem outcome_transparent (fn : Operation) (args : List PyVal)
    (kwargs : List (String × PyVal)) :
    outcomeOf (with_instrumentation fn) args kwargs = outcomeOf fn args kwargs := by
  have h : outcomeOf (with_instrumentation fn) args kwargs
      = (runBody fn args kwargs).1 := rfl
  rw [h, runBody_fst]

/-- A call of the wrapper creates exactly its own span. -/
theorem spansOf_wrapped (fn : Operation) (args : List PyVal)
    (kwargs : List (String × PyVal)) :
    spansOf (with_instrumentation fn) args kwargs = [wrapSpan fn args kwargs] := rfl

/-- Shape of the wrapper span when the wrapped call returns a value. -/
theorem wrapSpan_ok (fn : Operation) (args : List PyVal)
    (kwargs : List (String × PyVal)) (v : PyVal)
    (h : outcomeOf fn args kwargs = .ok v) :
    wrapSpan fn args kwargs =
      .node ⟨fn.module ++ "." ++ fn.name,
             baseAttrs fn args kwargs
               ++ [("operation.result_value", v.pyStr),
                   ("operation.result_type", v.pyTypeStr)],
             [], .unset, true⟩ (spansOf fn args kwargs) := by
  simp only [outcomeOf] at h
  unfold wrapSpan runBody spansOf
  simp [h]

/-- Shape of the wrapper span when the wrapped call raises an Exception. -/
theorem wrapSpan_raised (fn : Operation) (args : List PyVal)
    (kwargs : List (String × PyVal)) (e : Exn)
    (h : outcomeOf fn args kwargs = .raised e) (he : e.isException = true) :
    wrapSpan fn args kwargs =
      .node ⟨fn.module ++ "." ++ fn.name, baseAttrs fn args kwargs,
             [exnEvent e, exnEvent e], .error, true⟩ (spansOf fn args kwargs) := by
  simp only [outcomeOf] at h
  unfold wrapSpan runBody spansOf
  simp [h, he]

/-- Shape of the wrapper span when the wrapped call raises a BaseException
that is not an Exception. -/
theorem wrapSpan_raised_base (fn : Operation) (args : List PyVal)
    (kwargs : List (String × PyVal)) (e : Exn)
    (h : outcomeOf fn args kwargs = .raised e) (he : e.isException = false) :
    wrapSpan fn args kwargs =
      .node ⟨fn.module ++ "." ++ fn.name, baseAttrs fn args kwargs,
             [], .unset, true⟩ (spansOf fn args kwargs) := by
  simp only [outcomeOf] at h
  unfold wrapSpan runBody spansOf
  simp [h, he]

/-- The children of the wrapper span are the spans created by the wrapped
call itself. -/
theorem wrapSpan_children (fn : Operation) (args : List PyVal)
    (kwargs : List (String × PyVal)) :
    (wrapSpan fn args kwargs).children = spansOf fn args kwargs := by
  rcases ho : outcomeOf fn args kwargs with v | e
  · rw [wrapSpan_ok fn args kwargs v ho]; rfl
  · cases he : e.isException
    · rw [wrapSpan_raised_base fn args kwargs e ho he]; rfl
    · rw [wrapSpan_raised fn args kwargs e ho he]; rfl

/-- The wrapper span is named by the wrapped operation's module and name. -/
theorem wrapSpan_name (fn : Operation) (args : List PyVal)
    (kwargs : List (String × PyVal)) :
    (wrapSpan fn args kwargs).data.name = fn.module ++ "." ++ fn.name := by
  rcases ho : outcomeOf fn args kwargs with v | e
  · rw [wrapSpan_ok fn args kwargs v ho]; rfl
  · cases he : e.isException
    · rw [wrapSpan_raised_base fn args kwargs e ho he]; rfl
    · rw [wrapSpan_raised fn args kwargs e ho he]; rfl

/-- The pre-call attributes are always present on the wrapper span. -/
theorem baseAttrs_subset (fn : Operation) (args : List PyVal)
    (kwargs : List (String × PyVal)) :
    baseAttrs fn args kwargs ⊆ (wrapSpan fn args kwargs).data.attrs := by
  rcases ho : outcomeOf fn args kwargs with v | e
  · rw [wrapSpan_ok fn args kwargs v ho]
    exact List.subset_append_left _ _
  · cases he : e.isException
    · rw [wrapSpan_raised_base fn args kwargs e ho he]
      exact fun x hx => hx
    · rw [wrapSpan_raised fn args kwargs e ho he]
      exact fun x hx => hx

/-- Both attributes written for the positional argument at index i are in the
enumerate-loop attribute list. -/
theorem argAttrs_mem (args : List PyVal) (start i : Nat) (h : i < args.length) :
    ("operation.arg_" ++ toString (start + i) ++ "_value",
       (args.get ⟨i, h⟩).pyStr) ∈ argAttrs start args ∧
    ("operation.args_" ++ toString (start + i) ++ "_type",
       (args.get ⟨i, h⟩).pyTypeStr) ∈ argAttrs start args := by
  induction args generalizing start i with
  | nil => simp at h
  | cons a rest ih =>
    cases i with
    | zero => simp [argAttrs]
    | succ j =>
      have h2 : j < rest.length := Nat.lt_of_succ_lt_succ (by simpa using h)
      have e : start + (j + 1) = start + 1 + j := by omega
      have ihj := ih (start + 1) j h2
      simp only [List.get_cons_succ, argAttrs, e, List.mem_cons]
      exact ⟨Or.inr (Or.inr ihj.1), Or.inr (Or.inr ihj.2)⟩

/-- Both attributes written for a keyword argument are in the items-loop
attribute list. -/
theorem kwargAttrs_mem (kwargs : List (String × PyVal)) (k : String) (v : PyVal)
    (h : (k, v) ∈ kwargs) :
    ("operation.kwarg_" ++ k ++ "_value", v.pyStr) ∈ kwargAttrs kwargs ∧
    ("operation.kwarg_" ++ k ++ "_type", v.pyTypeStr) ∈ kwargAttrs kwargs := by
  induction kwargs with
  | nil => simp at h
  | cons p rest ih =>
    rcases List.mem_cons.mp h with hp | hp
    · obtain ⟨k1, v1⟩ := p
      obtain ⟨hk, hv⟩ := Prod.mk.injEq .. ▸ hp
      subst hk
      subst hv
      simp [kwargAttrs]
    · have ihp := ih hp
      obtain ⟨p1, p2⟩ := p
      simp only [kwargAttrs, List.mem_cons]
      exact ⟨Or.inr (Or.inr ihp.1), Or.inr (Or.inr ihp.2)⟩

/-- emit on an active span with a renderable message succeeds with the
emitStep effect. -/
theorem emit_ok_eq (s : SpanData) (r : LogRecord) (m : String)
    (hm : r.renderMsg = .ok m) :
    InstrumentedLoggerHandler.emit (some s) r = .ok (some (emitStep s r m)) := by
  simp [InstrumentedLoggerHandler.emit, emitStep, hm]

/-- emitStep appends exactly one event, whatever the severity. -/
theorem emitStep_events (s : SpanData) (r : LogRecord) (m : String) :
    (emitStep s r m).events = s.events ++ [⟨r.levelname ++ ": " ++ m, []⟩] := by
  unfold emitStep
  split <;> rfl

/-- Running the attached handlers over a renderable record applies emitStep
once per handler. -/
theorem callHandlers_ok (hs : List Nat) (s : SpanData) (r : LogRecord) (m : String)
    (hm : r.renderMsg = .ok m) :
    callHandlers hs (some s) r = .ok (some (runHandlers hs.length s r m)) := by
  induction hs generalizing s with
  | nil => rfl
  | cons h rest ih =>
    simp [callHandlers, emit_ok_eq s r m hm, runHandlers, ih]

/-- k emitStep applications append k copies of the record's event. -/
theorem runHandlers_events (k : Nat) (s : SpanData) (r : LogRecord) (m : String) :
    (runHandlers k s r m).events
      = s.events ++ List.replicate k ⟨r.levelname ++ ": " ++ m, []⟩ := by
  induction k generalizing s with
  | zero => simp [runHandlers]
  | succ n ih =>
    rw [runHandlers, ih (emitStep s r m), emitStep_events]
    simp [List.replicate_succ]

/-- After n registrations under one name the name-keyed logger carries the
handlers numbered 0 to n-1, and n identities have been allocated. -/
theorem stateAfter_handlers (nm : String) (n : Nat) :
    (stateAfter nm n).handlers nm = List.range n ∧ (stateAfter nm n).fresh = n := by
  induction n with
  | zero => exact ⟨rfl, rfl⟩
  | succ k ih =>
    have h1 : (stateAfter nm (k + 1)).handlers nm
        = addHandler ((stateAfter nm k).handlers nm) (stateAfter nm k).fresh := by
      simp [stateAfter, get_instumented_logger]
    constructor
    · rw [h1, ih.1, ih.2, addHandler]
      have hk : ¬ (k ∈ List.range k) := by simp
      rw [if_neg hk, List.range_succ]
    · simp [stateAfter, get_instumented_logger, ih.2]

/-- An uninterrupted run of the two fine-grained lru_cache steps agrees with
the sequential accessor. -/
theorem lru_steps_match_sequential (st : CacheState) :
    (match (lruStep st .start).2 with
     | .missed => lruStep (lruStep st .start).1 .missed
     | p => ((lruStep st .start).1, p))
      = ((get_instrumented_aiohttp_session st).2,
         .done (get_instrumented_aiohttp_session st).1) := by
  cases h : st.cache <;> simp [lruStep, get_instrumented_aiohttp_session, h]

/-- Once the session numbered 0 is cached, every further sequential call
returns it and leaves the state untouched. -/
theorem seqCalls_cached (k : Nat) :
    seqCalls k ⟨some 0, 1, 1⟩ = (List.replicate k 0, ⟨some 0, 1, 1⟩) := by
  induction k with
  | zero => rfl
  | succ j ih =>
    simp [seqCalls, get_instrumented_aiohttp_session, ih, List.replicate_succ]

/-- C1: for every operation and every choice of positional and keyword
inputs, driving a call of the operation produced by with_instrumentation to
completion yields a returned value, or a raised error, identical to driving a
direct call of the operation to completion; this holds whether the operation
completes immediately (synchronous) or through a coroutine (asynchronous),
and whether it returns or raises. -/
theorem wrapped_preserves_outcome (fn : Operation) (args : List PyVal)
    (kwargs : List (String × PyVal)) :
    outcomeOf (with_instrumentation fn) args kwargs = outcomeOf fn args kwargs :=
  outcome_transparent fn args kwargs

/-- C2: when the wrapped operation raises an Exception e, the wrapper sets
the span status to error, records the error class and message as exception
data on the span, ends the span, and the resolved outcome of the wrapped
call is the very same raised error. -/
theorem wrapped_error_path (fn : Operation) (args : List PyVal)
    (kwargs : List (String × PyVal)) (e : Exn)
    (ho : outcomeOf fn args kwargs = .raised e) (he : e.isException = true) :
    outcomeOf (with_instrumentation fn) args kwargs = .raised e ∧
    (wrapSpan fn args kwargs).data.status = .error ∧
    exnEvent e ∈ (wrapSpan fn args kwargs).data.events ∧
    (wrapSpan fn args kwargs).data.ended = true := by
  rw [outcome_transparent, wrapSpan_raised fn args kwargs e ho he]
  exact ⟨ho, rfl, by simp [SpanTree.data], rfl⟩

/-- Witness for C2 at the concrete operation opFail, which raises
ValueError("bad input"). -/
theorem wrapped_error_path_witness :
    outcomeOf opFail [] [] = .raised valErr ∧ valErr.isException = true ∧
    (outcomeOf (with_instrumentation opFail) [] [] = .raised valErr ∧
     (wrapSpan opFail [] []).data.status = .error ∧
     exnEvent valErr ∈ (wrapSpan opFail [] []).data.events ∧
     (wrapSpan opFail [] []).data.ended = true) :=
  ⟨rfl, rfl, wrapped_error_path opFail [] [] valErr rfl rfl⟩

/-- C3: a record of severity at least the error threshold (levelno 40),
emitted while span S is active, leaves S with status error and the event
named levelname colon message appended; a record emitted with no active span
changes nothing and raises nothing. -/
theorem log_error_marks_active_span (s : SpanData) (r r2 : LogRecord) (m : String)
    (hm : r.renderMsg = .ok m) (hl : 40 ≤ r.levelno) :
    InstrumentedLoggerHandler.emit (some s) r
      = .ok (some { s with
                    events := s.events ++ [⟨r.levelname ++ ": " ++ m, []⟩],
                    status := SpanStatus.error }) ∧
    InstrumentedLoggerHandler.emit none r2 = .ok none := by
  constructor
  · simp [InstrumentedLoggerHandler.emit, hm, hl]
  · rfl

/-- Witness for C3 at a concrete error-severity record; the no-span conjunct
is instantiated with the record whose message does not even render, showing
the no-span path touches nothing. -/
theorem log_error_marks_active_span_witness :
    errRecord.renderMsg = .ok "db down" ∧ (40 : Int) ≤ errRecord.levelno ∧
    (InstrumentedLoggerHandler.emit (some span0) errRecord
       = .ok (some { span0 with
                     events := span0.events
                       ++ [⟨errRecord.levelname ++ ": " ++ "db down", []⟩],
                     status := SpanStatus.error }) ∧
     InstrumentedLoggerHandler.emit none evilRecord = .ok none) :=
  ⟨rfl, by decide,
   log_error_marks_active_span span0 errRecord evilRecord "db down" rfl (by decide)⟩

/-- C4: the bridge's emit is not guarded by any try clause, so it is not a
silent no-op on internal failure: when the record's msg object raises from
its str conversion while a span is active, emit propagates that error to the
logging caller instead of degrading to a no-op.  This evaluates the model at
the failing input. -/
theorem emit_propagates_render_failure :
    InstrumentedLoggerHandler.emit (some span0) evilRecord = .error badMsgErr := rfl

/-- C5 counterexample: under the interleaving in which both concurrent first
calls miss the cache before either constructs (lru_cache runs the factory
outside any lock), the factory runs twice and the two callers receive
distinct session instances, refuting construction exactly once and refuting
that every call returns the first call's instance. -/
theorem session_race_two_instances_cex :
    (runSchedule raceSchedule initTwoCalls).pa = .done 0 ∧
    (runSchedule raceSchedule initTwoCalls).pb = .done 1 ∧
    (runSchedule raceSchedule initTwoCalls).pa ≠ (runSchedule raceSchedule initTwoCalls).pb ∧
    (runSchedule raceSchedule initTwoCalls).st.constructed = 2 := by
  decide

/-- C5 as amended: for calls that do not overlap (in particular all calls
made from a single event-loop thread), the first call constructs the session
and every one of the n+1 sequential calls returns that same instance, with
the factory body having run exactly once. -/
theorem session_sequential_singleton (n : Nat) :
    (seqCalls (n + 1) initCache).1 = List.replicate (n + 1) 0 ∧
    (seqCalls (n + 1) initCache).2.constructed = 1 := by
  have h1 : get_instrumented_aiohttp_session initCache = (0, ⟨some 0, 1, 1⟩) := rfl
  constructor
  · simp [seqCalls, h1, seqCalls_cached n, List.replicate_succ]
  · simp [seqCalls, h1, seqCalls_cached n]

/-- C6 counterexample: at the concrete operation plainOp, a call of the
doubly wrapped operation creates a span with one nested child span, while a
call of the singly wrapped operation creates a childless span, so the
observable tracing of the two differs. -/
theorem double_wrap_not_idempotent_cex :
    spansOf (with_instrumentation (with_instrumentation plainOp)) [] []
      ≠ spansOf (with_instrumentation plainOp) [] [] := by
  intro hcontra
  have h2 := congrArg (fun l => l.map fun t => t.children.length) hcontra
  have ha : (spansOf (with_instrumentation (with_instrumentation plainOp)) [] []).map
      (fun t => t.children.length) = [1] := rfl
  have hb : (spansOf (with_instrumentation plainOp) [] []).map
      (fun t => t.children.length) = [0] := rfl
  simp only [ha, hb] at h2
  simp at h2

/-- C6 as amended: with_instrumentation is not idempotent; wrapping an
already-wrapped operation double-counts.  Each call of the doubly wrapped
operation creates one outer span whose children are exactly the one span the
singly wrapped operation creates per call, the two spans carry the same name,
and only the resolved outcome is unchanged. -/
theorem double_wrap_adds_nested_span (fn : Operation) (args : List PyVal)
    (kwargs : List (String × PyVal)) :
    spansOf (with_instrumentation (with_instrumentation fn)) args kwargs
      = [wrapSpan (with_instrumentation fn) args kwargs] ∧
    (wrapSpan (with_instrumentation fn) args kwargs).children
      = [wrapSpan fn args kwargs] ∧
    (wrapSpan (with_instrumentation fn) args kwargs).data.name
      = (wrapSpan fn args kwargs).data.name ∧
    outcomeOf (with_instrumentation (with_instrumentation fn)) args kwargs
      = outcomeOf fn args kwargs := by
  refine ⟨rfl, ?_, ?_, ?_⟩
  · rw [wrapSpan_children (with_instrumentation fn) args kwargs]
    exact spansOf_wrapped fn args kwargs
  · rw [wrapSpan_name, wrapSpan_name]
    rfl
  · rw [outcome_transparent, outcome_transparent]

/-- C7: the wrapper records on its span, for every positional argument, the
stringified value and the type tag indexed by position, for every keyword
argument, the stringified value and the type tag keyed by name, and, when the
resolved call returns a value, the stringified result and its type tag. -/
theorem wrapped_records_call_attrs (fn : Operation) (args : List PyVal)
    (kwargs : List (String × PyVal)) :
    (∀ i (h : i < args.length),
       ("operation.arg_" ++ toString i ++ "_value", (args.get ⟨i, h⟩).pyStr)
           ∈ (wrapSpan fn args kwargs).data.attrs ∧
       ("operation.args_" ++ toString i ++ "_type", (args.get ⟨i, h⟩).pyTypeStr)
           ∈ (wrapSpan fn args kwargs).data.attrs) ∧
    (∀ k v, (k, v) ∈ kwargs →
       ("operation.kwarg_" ++ k ++ "_value", v.pyStr)
           ∈ (wrapSpan fn args kwargs).data.attrs ∧
       ("operation.kwarg_" ++ k ++ "_type", v.pyTypeStr)
           ∈ (wrapSpan fn args kwargs).data.attrs) ∧
    (∀ v, outcomeOf fn args kwargs = .ok v →
       ("operation.result_value", v.pyStr) ∈ (wrapSpan fn args kwargs).data.attrs ∧
       ("operation.result_type", v.pyTypeStr) ∈ (wrapSpan fn args kwargs).data.attrs) := by
  refine ⟨?_, ?_, ?_⟩
  · intro i h
    have hm := argAttrs_mem args 0 i h
    rw [Nat.zero_add] at hm
    constructor
    · exact baseAttrs_subset fn args kwargs
        (List.mem_cons_of_mem _ (List.mem_append_left _ hm.1))
    · exact baseAttrs_subset fn args kwargs
        (List.mem_cons_of_mem _ (List.mem_append_left _ hm.2))
  · intro k v hkv
    have hm := kwargAttrs_mem kwargs k v hkv
    constructor
    · exact baseAttrs_subset fn args kwargs
        (List.mem_cons_of_mem _ (List.mem_append_right _ hm.1))
    · exact baseAttrs_subset fn args kwargs
        (List.mem_cons_of_mem _ (List.mem_append_right _ hm.2))
  · intro v hv
    rw [wrapSpan_ok fn args kwargs v hv]
    constructor <;> simp [SpanTree.data]

/-- Witness for C7 at the divide scenario: arguments 10 and 2, keyword
argument b, result 5. -/
theorem wrapped_records_call_attrs_witness :
    (0 : Nat) < 2 ∧
    ("operation.arg_0_value", "10")
      ∈ (wrapSpan divideOp [.int 10, .int 2] [("b", .int 2)]).data.attrs ∧
    ("operation.kwarg_b_type", "<class \x27int\x27>")
      ∈ (wrapSpan divideOp [.int 10, .int 2] [("b", .int 2)]).data.attrs ∧
    ("operation.result_value", "5")
      ∈ (wrapSpan divideOp [.int 10, .int 2] [("b", .int 2)]).data.attrs := by
  have h := wrapped_records_call_attrs divideOp [.int 10, .int 2] [("b", .int 2)]
  refine ⟨by decide, ?_, ?_, ?_⟩
  · exact (h.1 0 (by decide)).1
  · exact (h.2.1 "b" (.int 2) (by simp)).2
  · exact (h.2.2 (.int 5) rfl).1

/-- C8: resource construction is a total function of the environment; the
service.name attribute is the environment-supplied OTEL_SERVICE_NAME when
present and the fallback string backend when absent, and service.version is
the constant 0.0.0. -/
theorem resource_construction_defaults (env : String → Option String) :
    (inject_instrumentation_resource env).attrs.lookup "service.name"
      = some ((env "OTEL_SERVICE_NAME").getD "backend") ∧
    (inject_instrumentation_resource env).attrs.lookup "service.version"
      = some "0.0.0" :=
  ⟨rfl, rfl⟩

/-- C9 counterexample: at the concrete operation opCancel, cancelled while
suspended at its await point, the wrapper does close its span, but the span
status is not error (it stays unset; the OpenTelemetry status set has no
cancelled value), refuting the claim that the span is marked
error/cancelled. -/
theorem cancelled_span_not_marked_error_cex :
    (wrapSpan opCancel [] []).data.ended = true ∧
    (wrapSpan opCancel [] []).data.status ≠ SpanStatus.error ∧
    outcomeOf (with_instrumentation opCancel) [] [] = .raised cancelledErr := by
  refine ⟨rfl, ?_, rfl⟩
  have h : (wrapSpan opCancel [] []).data.status = SpanStatus.unset := rfl
  rw [h]
  simp

/-- C9 as amended: when the wrapped operation is cancelled (it raises a
BaseException that is not an Exception, such as asyncio.CancelledError),
the wrapper still closes its span rather than leaking an open one, but the
span status remains unset, with no exception recorded, and the cancellation
propagates to the caller unchanged. -/
theorem cancellation_closes_span_unmarked (fn : Operation) (args : List PyVal)
    (kwargs : List (String × PyVal)) (e : Exn)
    (ho : outcomeOf fn args kwargs = .raised e) (he : e.isException = false) :
    (wrapSpan fn args kwargs).data.ended = true ∧
    (wrapSpan fn args kwargs).data.status = SpanStatus.unset ∧
    (wrapSpan fn args kwargs).data.events = [] ∧
    outcomeOf (with_instrumentation fn) args kwargs = .raised e := by
  rw [wrapSpan_raised_base fn args kwargs e ho he, outcome_transparent]
  exact ⟨rfl, rfl, rfl, ho⟩

/-- Witness for C9 as amended, at the concrete cancelled operation. -/
theorem cancellation_closes_span_unmarked_witness :
    outcomeOf opCancel [] [] = .raised cancelledErr ∧
    cancelledErr.isException = false ∧
    ((wrapSpan opCancel [] []).data.ended = true ∧
     (wrapSpan opCancel [] []).data.status = SpanStatus.unset ∧
     (wrapSpan opCancel [] []).data.events = [] ∧
     outcomeOf (with_instrumentation opCancel) [] [] = .raised cancelledErr) :=
  ⟨rfl, rfl, cancellation_closes_span_unmarked opCancel [] [] cancelledErr rfl rfl⟩

/-- C10: n calls of get_instumented_logger with one name leave n handlers
stacked on that single name-keyed logger (each call returns the same logger
and attaches one more fresh handler), so a record that renders and is emitted
through that logger while a span is active appends n separate copies of its
event to that span, one per accumulated handler. -/
theorem repeated_logger_calls_stack_handlers (nm : String) (n : Nat)
    (s : SpanData) (r : LogRecord) (m : String) (hm : r.renderMsg = .ok m) :
    ((stateAfter nm n).handlers nm).length = n ∧
    (get_instumented_logger nm (stateAfter nm n)).1 = nm ∧
    callHandlers ((stateAfter nm n).handlers nm) (some s) r
      = .ok (some (runHandlers n s r m)) ∧
    (runHandlers n s r m).events
      = s.events ++ List.replicate n ⟨r.levelname ++ ": " ++ m, []⟩ := by
  have hh := (stateAfter_handlers nm n).1
  have hlen : ((stateAfter nm n).handlers nm).length = n := by
    rw [hh]; exact List.length_range n
  refine ⟨hlen, rfl, ?_, runHandlers_events n s r m⟩
  have hc := callHandlers_ok ((stateAfter nm n).handlers nm) s r m hm
  rw [hlen] at hc
  exact hc

/-- Witness for C10 after two registrations under the name app. -/
theorem repeated_logger_calls_stack_handlers_witness :
    errRecord.renderMsg = .ok "db down" ∧
    (((stateAfter "app" 2).handlers "app").length = 2 ∧
     (get_instumented_logger "app" (stateAfter "app" 2)).1 = "app" ∧
     callHandlers ((stateAfter "app" 2).handlers "app") (some span0) errRecord
       = .ok (some (runHandlers 2 span0 errRecord "db down")) ∧
     (runHandlers 2 span0 errRecord "db down").events
       = span0.events
           ++ List.replicate 2 ⟨errRecord.levelname ++ ": " ++ "db down", []⟩) :=
  ⟨rfl, repeated_logger_calls_stack_handlers "app" 2 span0 errRecord "db down" rfl⟩
